import Mathlib

/-!
Verification of the run-with-notification tool (run_with_notification.py and
send_email.py) against its natural-language specification.

The Python program is embedded shallowly: pure string/list logic is translated
directly; the operating-system effects (process spawning, the two reader
threads, the shared queue, wall-clock time, SMTP delivery) are made explicit as
oracle inputs, so that each function of the source becomes a total computable
Lean function of its inputs and of the observed effect outcomes.  Machine
integers of the source are modelled as Int; durations, which the source keeps
as floats but only compares and formats, are modelled as whole seconds (Int).
-/

namespace RunNotify

/-! ## Python string primitives

The source relies on str.rstrip, str.strip, str.split with separator
a newline, and the in operator on strings.  These are modelled here over
the underlying character lists, restricted to ASCII whitespace, which is
all the program ever produces.
-/

/-- Characters stripped by Python str.strip and str.rstrip with no
argument (ASCII subset of Python whitespace). -/
def pyWhitespace (c : Char) : Bool :=
  c = ' ' || c = '\t' || c = '\n' || c = '\x0d' || c = '\x0b' || c = '\x0c'

/-- Model of Python str.rstrip with no argument: remove trailing whitespace. -/
def pyRstrip (s : String) : String :=
  String.mk ((s.data.reverse.dropWhile pyWhitespace).reverse)

/-- Model of Python str.lstrip with no argument: remove leading whitespace. -/
def pyLstrip (s : String) : String :=
  String.mk (s.data.dropWhile pyWhitespace)

/-- Model of Python str.strip with no argument. -/
def pyStrip (s : String) : String :=
  pyLstrip (pyRstrip s)

/-- Split a character list at newline characters, Python style:
the empty list yields one empty field. -/
def splitNlChars : List Char → List (List Char)
  | [] => [[]]
  | c :: rest =>
    let r := splitNlChars rest
    if c = '\n' then [] :: r
    else
      match r with
      | [] => [[c]]
      | h :: t => (c :: h) :: t

/-- Model of the Python expression s.split with separator a single
newline character. -/
def pySplitNl (s : String) : List String :=
  (splitNlChars s.data).map String.mk

/-- Model of Python sep.join over a list of strings. -/
def pyJoin (sep : String) : List String → String
  | [] => ""
  | [s] => s
  | s :: rest => s ++ sep ++ pyJoin sep rest

/-- Whether the first list is an initial segment of the second. -/
def charsStartWith : List Char → List Char → Bool
  | [], _ => true
  | _ :: _, [] => false
  | p :: ps, c :: cs => p = c && charsStartWith ps cs

/-- Whether the pattern occurs as a contiguous run inside the list. -/
def charsContains : List Char → List Char → Bool
  | pat, [] => charsStartWith pat []
  | pat, c :: rest => charsStartWith pat (c :: rest) || charsContains pat rest

/-- Model of the Python membership test sub in s on strings. -/
def strContainsSub (s sub : String) : Bool :=
  charsContains sub.data s.data

/-- Model of Python str.lower restricted to ASCII: lowercase every
character. -/
def pyLower (s : String) : String :=
  String.mk (s.data.map Char.toLower)

/-- Truthiness of an optional Python string: present and nonempty. -/
def pyTruthyStr : Option String → Bool
  | none => false
  | some s => s != ""

/-! ## Shell Adapter (get_shell_command, lines 74 to 96) -/

/-- The shell metacharacter substrings scanned for by get_shell_command. -/
def shellOperators : List String :=
  ["|", ">", "<", "&&", "||", ";", "&"]

/-- The scan performed by get_shell_command on the space-joined command text. -/
def hasShellOperators (command_str : String) : Bool :=
  shellOperators.any (fun op => strContainsSub command_str op)

/-- Model of get_shell_command.  The result of platform.system() is passed
in as systemName; the source lowercases it before comparing. -/
def get_shell_command (systemName : String) (command : List String) : List String :=
  let system := pyLower systemName
  let command_str := pyJoin " " command
  if hasShellOperators command_str then
    if system = "windows" then ["cmd", "/c", command_str]
    else ["bash", "-c", command_str]
  else command

/-! ## Command Classifier (detect_command_type, lines 29 to 71) -/

/-- The set of first tokens classified as python commands. -/
def python_commands : List String :=
  ["python", "python3", "python2", "py",
   "pip", "pip3", "pip2",
   "conda", "poetry", "pipenv",
   "jupyter", "ipython",
   "pytest", "python-m"]

/-- The set of first tokens classified as system commands. -/
def system_commands : List String :=
  ["ls", "dir", "cd", "mkdir", "rmdir", "rm", "del",
   "cp", "copy", "mv", "move", "chmod", "chown",
   "ps", "top", "htop", "kill", "killall",
   "wget", "curl", "git", "docker", "docker-compose",
   "npm", "yarn", "node", "make", "cmake",
   "gcc", "g++", "javac", "java",
   "tar", "zip", "unzip", "gzip", "gunzip"]

/-- Model of detect_command_type. -/
def detect_command_type (command : List String) : String :=
  match command with
  | [] => "shell"
  | first :: _ =>
    let first_cmd := pyLower first
    if python_commands.contains first_cmd then "python"
    else if system_commands.contains first_cmd then "system"
    else "shell"

/-! ## Output reader threads (stream_output, lines 99 to 114)

A reader thread repeatedly calls pipe.readline; the iteration stops at the
empty-string sentinel, and any exception raised during reading makes the
thread enqueue a single synthesized error line and stop.  The successive
outcomes of pipe.readline are the oracle input. -/

/-- One observed outcome of pipe.readline: either a line (possibly the
empty-string end-of-stream sentinel) or a raised exception with its text. -/
inductive ReadEv where
  | line (s : String)
  | err (msg : String)
deriving DecidableEq, Repr

/-- Model of stream_output: the list of (prefix, text) pairs the thread puts
on the shared queue, given the successive readline outcomes. -/
def stream_output (pfx : String) : List ReadEv → List (String × String)
  | [] => []
  | ReadEv.line s :: rest =>
    if s = "" then []
    else (pfx, pyRstrip s) :: stream_output pfx rest
  | ReadEv.err m :: _ => [(pfx, "读取输出时出错: " ++ m)]

/-! ## Process Runner (run_command, lines 180 to 316)

The draining loop of run_command alternates between dequeuing tagged lines
and observing an empty queue; on an empty queue it checks first whether the
child has exited and then whether the configured timeout has elapsed.  Each
loop iteration is recorded as one QueuePoll observation.  The whole
interaction with the operating system during one run is a RunTrace, and the
spawn itself may instead fail, which SpawnOutcome records. -/

/-- One iteration of the draining loop: either a dequeued (source, line)
pair, or an empty-queue observation carrying whether process.poll() reported
termination and the elapsed wall-clock seconds at that instant. -/
inductive QueuePoll where
  | item (source line : String)
  | empty (procDone : Bool) (elapsed : Int)
deriving DecidableEq, Repr

/-- The Python condition timeout and elapsed greater than timeout: None and
zero are falsy. -/
def timeoutTriggered (timeout : Option Int) (elapsed : Int) : Bool :=
  match timeout with
  | none => false
  | some t => t != 0 && elapsed > t

/-- How the draining loop ended: normal break because the child exited, or
the timeout path with the elapsed time at which it fired.  Both carry the
accumulated per-stream line buffers. -/
inductive DrainOut where
  | finished (stdoutLines stderrLines : List String)
  | timedOut (stdoutLines stderrLines : List String) (elapsed : Int)
deriving DecidableEq, Repr

/-- The draining loop of run_command (lines 237 to 265).  Returns none when
the observation list is exhausted before the loop exits (the real loop would
still be polling). -/
def drainLoop (timeout : Option Int) : List QueuePoll → List String → List String → Option DrainOut
  | [], _, _ => none
  | QueuePoll.item source line :: rest, so, se =>
    if source = "STDOUT" then drainLoop timeout rest (so ++ [line]) se
    else if source = "STDERR" then drainLoop timeout rest so (se ++ [line])
    else drainLoop timeout rest so se
  | QueuePoll.empty procDone elapsed :: rest, so, se =>
    if procDone then some (DrainOut.finished so se)
    else if timeoutTriggered timeout elapsed then some (DrainOut.timedOut so se elapsed)
    else drainLoop timeout rest so se

/-- The residual queue drain after the loop breaks (lines 272 to 280):
get_nowait until empty, with the same source dispatch. -/
def residualDrain : List (String × String) → List String → List String → List String × List String
  | [], so, se => (so, se)
  | (source, line) :: rest, so, se =>
    if source = "STDOUT" then residualDrain rest (so ++ [line]) se
    else if source = "STDERR" then residualDrain rest so (se ++ [line])
    else residualDrain rest so se

/-- Everything run_command observes from the operating system when the spawn
succeeds: the draining-loop observations, the residual queue contents after
the break, the final returncode, and the elapsed seconds measured after
process.wait(). -/
structure RunTrace where
  loopPolls : List QueuePoll
  residual : List (String × String)
  returncode : Int
  durationAtEnd : Int
deriving DecidableEq, Repr

/-- Outcome of subprocess.Popen: success with a interaction trace,
FileNotFoundError, or any other exception with its text.  The failure cases
carry the elapsed seconds at which the handler ran. -/
inductive SpawnOutcome where
  | ok (tr : RunTrace)
  | fileNotFound (duration : Int)
  | otherError (msg : String) (duration : Int)
deriving DecidableEq, Repr

/-- The 4-tuple returned by run_command: exit code, captured stdout text,
captured stderr text, duration in seconds. -/
structure ExecResult where
  exitCode : Int
  stdout : String
  stderr : String
  duration : Int
deriving DecidableEq, Repr

/-- The timeout error message of line 263. -/
def timeoutMessage (timeout : Option Int) : String :=
  "命令执行超时（" ++ (match timeout with | some t => toString t | none => "None") ++ "秒）"

/-- Model of run_command.  Returns none only when the supplied trace is too
short for the draining loop to exit, which corresponds to the real loop
still running. -/
def run_command (systemName : String) (command : List String) (timeout : Option Int)
    (spawn : SpawnOutcome) : Option ExecResult :=
  let exec_command := get_shell_command systemName command
  match spawn with
  | SpawnOutcome.fileNotFound d =>
    some ⟨127, "", "找不到命令: " ++ exec_command.headD "unknown", d⟩
  | SpawnOutcome.otherError msg d =>
    some ⟨1, "", "执行命令时发生错误: " ++ msg, d⟩
  | SpawnOutcome.ok tr =>
    match drainLoop timeout tr.loopPolls [] [] with
    | none => none
    | some (DrainOut.timedOut so _se elapsed) =>
      some ⟨124, pyJoin "\n" so, timeoutMessage timeout, elapsed⟩
    | some (DrainOut.finished so se) =>
      let p := residualDrain tr.residual so se
      some ⟨tr.returncode, pyJoin "\n" p.1, pyJoin "\n" p.2, tr.durationAtEnd⟩

/-! ## Notification Formatter (format_duration and the extra-info blocks of
main, lines 319 to 331 and 377 to 410)

Durations are modelled as whole seconds; a Python float with value n renders
under the .1f format as the digits of n followed by a dot and a zero. -/

/-- Rendering of a whole-second value under the Python .1f float format. -/
def fmtFloat1 (n : Int) : String := toString n ++ ".0"

/-- Model of format_duration on whole seconds. -/
def format_duration (seconds : Int) : String :=
  if seconds < 60 then fmtFloat1 seconds ++ " 秒"
  else if seconds < 3600 then
    toString (seconds / 60) ++ " 分 " ++ fmtFloat1 (seconds % 60) ++ " 秒"
  else
    toString (seconds / 3600) ++ " 小时 " ++ toString ((seconds % 3600) / 60)
      ++ " 分 " ++ fmtFloat1 (seconds % 60) ++ " 秒"

/-- The Chinese command-type label chosen in main (lines 371 to 375). -/
def cmdTypeCn (cmd_type : String) : String :=
  if cmd_type = "python" then "Python程序"
  else if cmd_type = "system" then "系统命令"
  else if cmd_type = "shell" then "Shell命令"
  else "程序"

/-- The fixed first lines of the success extra-info block (line 379). -/
def successBaseInfo (cmd_type_cn : String) (duration : Int) : String :=
  "命令类型: " ++ cmd_type_cn ++ "\n运行时间: " ++ format_duration duration

/-- The extra-info text built on the success path of main (lines 377 to 388). -/
def successExtraInfo (cmd_type_cn : String) (duration : Int) (stdout : String) : String :=
  let base := successBaseInfo cmd_type_cn duration
  if stdout != "" then
    let output_lines := pySplitNl (pyStrip stdout)
    if output_lines.length ≤ 10 then
      base ++ "\n\n输出内容:\n" ++ pyStrip stdout
    else
      base ++ "\n\n输出摘要 (前5行):\n" ++ pyJoin "\n" (output_lines.take 5)
        ++ "\n... (共 " ++ toString output_lines.length ++ " 行输出)"
  else base

/-- The fixed first lines of the failure extra-info block (line 394). -/
def failureBaseInfo (cmd_type_cn : String) (exitCode : Int) (duration : Int) : String :=
  "命令类型: " ++ cmd_type_cn ++ "\n退出码: " ++ toString exitCode
    ++ "\n运行时间: " ++ format_duration duration

/-- The extra-info text built on the failure path of main (lines 393 to 410). -/
def failureExtraInfo (cmd_type_cn : String) (exitCode : Int) (duration : Int)
    (stdout stderr : String) : String :=
  let base := failureBaseInfo cmd_type_cn exitCode duration
  let withErr :=
    if stderr != "" then
      let stderr_lines := pySplitNl (pyStrip stderr)
      if stderr_lines.length ≤ 5 then
        base ++ "\n\n错误输出:\n" ++ pyStrip stderr
      else
        base ++ "\n\n错误输出 (最后5行):\n"
          ++ pyJoin "\n" (stderr_lines.drop (stderr_lines.length - 5))
    else base
  if stdout != "" then
    let stdout_lines := pySplitNl (pyStrip stdout)
    if stdout_lines.length ≤ 3 then
      withErr ++ "\n\n标准输出:\n" ++ pyStrip stdout
    else
      withErr ++ "\n\n标准输出 (最后3行):\n"
        ++ pyJoin "\n" (stdout_lines.drop (stdout_lines.length - 3))
  else withErr

/-! ## Notifier Transport (EmailNotifier.send_notification, send_email.py
lines 118 to 167)

The content construction is pure string templating; the SMTP session is the
effectful part and enters as an oracle describing what the transport did:
either send_message returned a refusal dictionary (empty or not, with its
rendering), or an smtplib.SMTPResponseException was raised (with its code and
whether its error bytes contain the three NUL bytes the source probes for),
or some other exception was raised. -/

/-- Observed outcome of the SMTP session inside send_notification. -/
inductive SmtpOutcome where
  | sendReturns (resultEmpty : Bool) (resultRepr : String)
  | respException (smtp_code : Int) (errHasTripleNul : Bool) (eRepr : String)
  | otherException (eRepr : String)
deriving DecidableEq, Repr

/-- The control flow of send_notification over the SMTP outcome: ok true
models returning True, error models an exception propagating to the caller,
carrying the message text of the raised exception. -/
def smtpDeliver (smtp : SmtpOutcome) : Except String Bool :=
  match smtp with
  | SmtpOutcome.sendReturns true _ => Except.ok true
  | SmtpOutcome.sendReturns false r =>
    Except.error ("邮件发送失败: " ++ "部分收件人发送失败: " ++ r)
  | SmtpOutcome.respException code hasNul eRepr =>
    if code = -1 && hasNul then Except.ok true
    else Except.error ("SMTP错误: " ++ eRepr)
  | SmtpOutcome.otherException eRepr =>
    Except.error ("邮件发送失败: " ++ eRepr)

/-- Model of EmailNotifier.send_notification.  The message content does not
influence the delivery outcome, which is determined by the SMTP oracle. -/
def send_notification (program_name status extra_info : String)
    (smtp : SmtpOutcome) : Except String Bool :=
  smtpDeliver smtp

/-! ## CLI driver (main, lines 334 to 419)

argparse output is the Args record; the result of shlex.split on the string
form of the command is an oracle (ok with the token list, or error with the
exception text); the environment lookup of EMAIL_APP_PASSWORD is an oracle;
the process run is the SpawnOutcome oracle of run_command; the notification
transport is the SmtpOutcome oracle.  The MainResult records the argument of
sys.exit, whether run_command was reached, and the notification-related
lines printed (the two missing-password warnings, the send-success lines,
and the caught-delivery-failure line); ordinary progress echo is not
modelled. -/

/-- Parsed command-line arguments as produced by parse_arguments. -/
structure Args where
  command_string : Option String
  command : Option (List String)
  name : Option String
  no_email : Bool
  timeout : Option Int
deriving DecidableEq, Repr

/-- Final observable outcome of main: exit status, whether the command was
executed, and the notification-related log lines. -/
structure MainResult where
  exit : Int
  executed : Bool
  log : List String
deriving DecidableEq, Repr

/-- Lines 338 to 348 of main: choose the command list, going through
shlex.split when the positional string form is present (and truthy).  An
error result models the SystemExit path of line 345; ok none models the case
in which neither form yields a list (main would then crash on join). -/
def determineCommand (command_string : Option String) (command : Option (List String))
    (shlexRes : Except String (List String)) : Except String (Option (List String)) :=
  if pyTruthyStr command_string then
    match shlexRes with
    | Except.error e => Except.error e
    | Except.ok c => Except.ok (some c)
  else Except.ok command

/-- The two warning lines printed when EMAIL_APP_PASSWORD is missing
(lines 357 to 358). -/
def missingPasswordWarning : List String :=
  ["警告: 未设置 EMAIL_APP_PASSWORD 环境变量，将不发送邮件通知",
   "请设置环境变量或使用 --no-email 参数"]

/-- Model of main.  Returns none when main would crash outside the modelled
error handling (no command list at all) or when the draining loop trace is
too short. -/
def main_model (args : Args) (shlexRes : Except String (List String))
    (env_password : Option String) (systemName : String) (spawn : SpawnOutcome)
    (smtp : SmtpOutcome) : Option MainResult :=
  match determineCommand args.command_string args.command shlexRes with
  | Except.error e => some ⟨1, false, ["错误: 无法解析命令字符串: " ++ e]⟩
  | Except.ok none => none
  | Except.ok (some command) =>
    let program_name :=
      match args.name with
      | some n => if n != "" then n else pyJoin " " command
      | none => pyJoin " " command
    let envMissing := !args.no_email && !pyTruthyStr env_password
    let no_email := args.no_email || envMissing
    let warnLog := if envMissing then missingPasswordWarning else []
    match run_command systemName command args.timeout spawn with
    | none => none
    | some result =>
      if no_email then some ⟨result.exitCode, true, warnLog⟩
      else
        let cmd_type_cn := cmdTypeCn (detect_command_type command)
        let notifyLog :=
          if result.exitCode = 0 then
            match send_notification program_name "SUCCESS"
                (successExtraInfo cmd_type_cn result.duration result.stdout) smtp with
            | Except.ok _ => ["✅ 邮件通知发送成功"]
            | Except.error e => ["⚠️  邮件发送失败: " ++ e]
          else
            match send_notification program_name "FAILURE"
                (failureExtraInfo cmd_type_cn result.exitCode result.duration
                  result.stdout result.stderr) smtp with
            | Except.ok _ => ["邮件通知发送成功"]
            | Except.error e => ["⚠️  邮件发送失败: " ++ e]
        some ⟨result.exitCode, true, warnLog ++ notifyLog⟩

/-! ## Bookkeeping for the draining loop

pollsConsumed mirrors the control flow of drainLoop and collects the
(source, line) pairs actually dequeued before the loop exits; projLines
projects such a pair list onto one stream, keeping order. -/

/-- The (source, line) pairs dequeued by the draining loop before it exits. -/
def pollsConsumed (timeout : Option Int) : List QueuePoll → List (String × String)
  | [] => []
  | QueuePoll.item source line :: rest => (source, line) :: pollsConsumed timeout rest
  | QueuePoll.empty procDone elapsed :: rest =>
    if procDone then []
    else if timeoutTriggered timeout elapsed then []
    else pollsConsumed timeout rest

/-- In-order projection of dequeued pairs onto the stream with the given tag. -/
def projLines (tag : String) : List (String × String) → List String
  | [] => []
  | (source, line) :: rest =>
    if source = tag then line :: projLines tag rest else projLines tag rest

theorem projLines_append (tag : String) (a b : List (String × String)) :
    projLines tag (a ++ b) = projLines tag a ++ projLines tag b := by
  induction a with
  | nil => simp [projLines]
  | cons p rest ih =>
    obtain ⟨source, line⟩ := p
    by_cases h : source = tag <;> simp [projLines, h, ih]

theorem drainLoop_finished_proj (timeout : Option Int) :
    ∀ (polls : List QueuePoll) (so se so2 se2 : List String),
      drainLoop timeout polls so se = some (DrainOut.finished so2 se2) →
      so2 = so ++ projLines "STDOUT" (pollsConsumed timeout polls) ∧
      se2 = se ++ projLines "STDERR" (pollsConsumed timeout polls) := by
  intro polls
  induction polls with
  | nil => intro so se so2 se2 h; simp [drainLoop] at h
  | cons p rest ih =>
    intro so se so2 se2 h
    cases p with
    | item source line =>
      by_cases h1 : source = "STDOUT"
      · subst h1
        simp [drainLoop] at h
        have := ih (so ++ [line]) se so2 se2 h
        simpa [pollsConsumed, projLines] using this
      · by_cases h2 : source = "STDERR"
        · subst h2
          simp [drainLoop] at h
          have := ih so (se ++ [line]) so2 se2 h
          simpa [pollsConsumed, projLines] using this
        · simp [drainLoop, h1, h2] at h
          have := ih so se so2 se2 h
          simpa [pollsConsumed, projLines, h1, h2] using this
    | empty procDone elapsed =>
      by_cases hd : procDone
      · subst hd
        simp [drainLoop] at h
        obtain ⟨h1, h2⟩ := h
        subst h1; subst h2
        simp [pollsConsumed, projLines]
      · simp [drainLoop, hd] at h
        by_cases ht : timeoutTriggered timeout elapsed
        · simp [ht] at h
        · simp [ht] at h
          have := ih so se so2 se2 h
          simpa [pollsConsumed, hd, ht] using this

theorem drainLoop_timedOut_proj (timeout : Option Int) :
    ∀ (polls : List QueuePoll) (so se so2 se2 : List String) (e : Int),
      drainLoop timeout polls so se = some (DrainOut.timedOut so2 se2 e) →
      so2 = so ++ projLines "STDOUT" (pollsConsumed timeout polls) ∧
      se2 = se ++ projLines "STDERR" (pollsConsumed timeout polls) := by
  intro polls
  induction polls with
  | nil => intro so se so2 se2 e h; simp [drainLoop] at h
  | cons p rest ih =>
    intro so se so2 se2 e h
    cases p with
    | item source line =>
      by_cases h1 : source = "STDOUT"
      · subst h1
        simp [drainLoop] at h
        have := ih (so ++ [line]) se so2 se2 e h
        simpa [pollsConsumed, projLines] using this
      · by_cases h2 : source = "STDERR"
        · subst h2
          simp [drainLoop] at h
          have := ih so (se ++ [line]) so2 se2 e h
          simpa [pollsConsumed, projLines] using this
        · simp [drainLoop, h1, h2] at h
          have := ih so se so2 se2 e h
          simpa [pollsConsumed, projLines, h1, h2] using this
    | empty procDone elapsed =>
      by_cases hd : procDone
      · subst hd
        simp [drainLoop] at h
      · simp [drainLoop, hd] at h
        by_cases ht : timeoutTriggered timeout elapsed
        · simp [ht] at h
          obtain ⟨h1, h2, _⟩ := h
          subst h1; subst h2
          simp [pollsConsumed, hd, ht, projLines]
        · simp [ht] at h
          have := ih so se so2 se2 e h
          simpa [pollsConsumed, hd, ht] using this

theorem residualDrain_proj :
    ∀ (items : List (String × String)) (so se : List String),
      residualDrain items so se =
        (so ++ projLines "STDOUT" items, se ++ projLines "STDERR" items) := by
  intro items
  induction items with
  | nil => intro so se; simp [residualDrain, projLines]
  | cons p rest ih =>
    intro so se
    obtain ⟨source, line⟩ := p
    by_cases h1 : source = "STDOUT"
    · subst h1
      simp [residualDrain, projLines, ih]
    · by_cases h2 : source = "STDERR"
      · subst h2
        simp [residualDrain, projLines, ih]
      · simp [residualDrain, projLines, h1, h2, ih]

/-! ## Claims -/

theorem wrap_ne_command (a b : String) (command : List String)
    (hc : command = [a, b, pyJoin " " command]) : False := by
  have hj : pyJoin " " command = a ++ " " ++ (b ++ " " ++ pyJoin " " command) := by
    conv_lhs => rw [hc]
    simp [pyJoin]
  have hlen := congrArg String.length hj
  have h1 : (" " : String).length = 1 := rfl
  simp [String.length_append, h1] at hlen
  omega

/-- C4: the Shell Adapter returns the argument vector unchanged exactly when
no shell metacharacter substring occurs in the space-joined command text, and
otherwise returns the three-element platform-shell wrapping of the joined
text (cmd /c on windows, bash -c elsewhere). -/
theorem C4_shell_adapter (systemName : String) (command : List String) :
    (get_shell_command systemName command = command ↔
      hasShellOperators (pyJoin " " command) = false) ∧
    (hasShellOperators (pyJoin " " command) = true →
      get_shell_command systemName command =
        if pyLower systemName = "windows" then ["cmd", "/c", pyJoin " " command]
        else ["bash", "-c", pyJoin " " command]) := by
  by_cases h : hasShellOperators (pyJoin " " command) = true
  · constructor
    · constructor
      · intro hEq
        exfalso
        rw [get_shell_command] at hEq
        simp only [h, if_true] at hEq
        by_cases hw : pyLower systemName = "windows"
        · rw [if_pos hw] at hEq
          exact wrap_ne_command "cmd" "/c" command hEq.symm
        · rw [if_neg hw] at hEq
          exact wrap_ne_command "bash" "-c" command hEq.symm
      · intro hfalse
        rw [h] at hfalse
        cases hfalse
    · intro _
      simp only [get_shell_command, h, if_true]
  · have h0 : hasShellOperators (pyJoin " " command) = false := by
      revert h; cases hasShellOperators (pyJoin " " command) <;> simp
    constructor
    · constructor
      · intro _; exact h0
      · intro _; simp [get_shell_command, h0]
    · intro hT
      rw [h0] at hT
      cases hT

/-- Witness for C4 at concrete inputs: a plain command passes through, a
piped command is wrapped for bash. -/
theorem C4_shell_adapter_witness :
    get_shell_command "Linux" ["ls", "-la"] = ["ls", "-la"] ∧
    get_shell_command "Linux" ["echo", "a|b"] = ["bash", "-c", "echo a|b"] := by
  constructor
  · exact (C4_shell_adapter "Linux" ["ls", "-la"]).1.mpr (by decide)
  · have h := (C4_shell_adapter "Linux" ["echo", "a|b"]).2 (by decide)
    exact h.trans (by decide)

/-- C10: send_notification never produces the value False: every SMTP
outcome leads either to True or to a raised exception. -/
theorem C10_send_notification_never_false (p s x : String) (smtp : SmtpOutcome) :
    send_notification p s x smtp ≠ Except.ok false := by
  cases smtp with
  | sendReturns re rr => cases re <;> simp [send_notification, smtpDeliver]
  | respException c hn er =>
    by_cases h : c = -1
    · cases hn <;> simp [send_notification, smtpDeliver, h]
    · simp [send_notification, smtpDeliver, h]
  | otherException er => simp [send_notification, smtpDeliver]

/-- C2 counterexample: for a nonexistent executable, run_command returns
exit code 127 with empty stdout but a nonempty stderr carrying the
command-not-found message, refuting the claim that both are empty. -/
theorem C2_counterexample :
    run_command "Linux" ["nonexistent_binary_xyz"] none (SpawnOutcome.fileNotFound 0) =
      some ⟨127, "", "找不到命令: nonexistent_binary_xyz", 0⟩ ∧
    ("找不到命令: nonexistent_binary_xyz" : String) ≠ "" := by
  exact ⟨rfl, by decide⟩

/-- C2 (amended): when the executable does not exist at spawn time,
run_command returns exit code 127, empty stdout, and a stderr text naming
the first token of the adapted command. -/
theorem C2_file_not_found (systemName : String) (command : List String)
    (timeout : Option Int) (d : Int) :
    run_command systemName command timeout (SpawnOutcome.fileNotFound d) =
      some ⟨127, "",
        "找不到命令: " ++ (get_shell_command systemName command).headD "unknown", d⟩ := rfl

/-- Modelled from the claim wording for comparison: strip only one trailing
newline character, leaving any other trailing whitespace in place. -/
def stripOnlyTrailingNewline (s : String) : String :=
  match s.data.reverse with
  | '\n' :: rest => String.mk rest.reverse
  | _ => s

/-- C7 counterexample: a line ending in a space before its newline is stored
with the space removed as well, because the source calls rstrip, refuting
the claim that only the trailing newline is stripped. -/
theorem C7_counterexample :
    stream_output "STDOUT" [ReadEv.line "a \n"] ≠
      [("STDOUT", stripOnlyTrailingNewline "a \n")] := by
  decide

/-- C7 (amended): every line read from a child stream is enqueued tagged
with its stream prefix and with all trailing whitespace stripped (Python
rstrip), and a read error makes the reader enqueue exactly one synthesized
error line after the lines already read. -/
theorem C7_stream_events (pfx : String) :
    (∀ lines : List String, (∀ l ∈ lines, l ≠ "") →
      stream_output pfx (lines.map ReadEv.line) =
        lines.map (fun l => (pfx, pyRstrip l))) ∧
    (∀ (lines : List String) (m : String), (∀ l ∈ lines, l ≠ "") →
      stream_output pfx (lines.map ReadEv.line ++ [ReadEv.err m]) =
        lines.map (fun l => (pfx, pyRstrip l)) ++
          [(pfx, "读取输出时出错: " ++ m)]) := by
  constructor
  · intro lines h
    induction lines with
    | nil => rfl
    | cons l rest ih =>
      have hl : l ≠ "" := h l (List.mem_cons_self l rest)
      have hrest : ∀ x ∈ rest, x ≠ "" := fun x hx => h x (List.mem_cons_of_mem l hx)
      simp [stream_output, hl, ih hrest]
  · intro lines m h
    induction lines with
    | nil => rfl
    | cons l rest ih =>
      have hl : l ≠ "" := h l (List.mem_cons_self l rest)
      have hrest : ∀ x ∈ rest, x ≠ "" := fun x hx => h x (List.mem_cons_of_mem l hx)
      simp [stream_output, hl, ih hrest]

/-- Witness for C7 at concrete inputs. -/
theorem C7_stream_events_witness :
    stream_output "STDERR" [ReadEv.line "warn \n", ReadEv.err "io"] =
      [("STDERR", "warn"), ("STDERR", "读取输出时出错: io")] := by
  have h := (C7_stream_events "STDERR").2 ["warn \n"] "io" (by decide)
  exact h.trans (by decide)

/-- C1 counterexample: with a 10 second timeout, a trace in which one stderr
line was dequeued before the timeout fired yields a result whose stderr is
the timeout message and not the dequeued line, refuting the claim that
stderr equals the dequeued stderr lines. -/
theorem C1_counterexample :
    run_command "Linux" ["sleep", "100"] (some 10)
        (SpawnOutcome.ok ⟨[QueuePoll.item "STDERR" "boom", QueuePoll.empty false 11],
          [], 0, 11⟩) =
      some ⟨124, "", "命令执行超时（10秒）", 11⟩ ∧
    ("命令执行超时（10秒）" : String) ≠ "boom" := by
  exact ⟨rfl, by decide⟩

/-- C1 (amended): when the draining loop takes the timeout path, run_command
returns exit code 124, a stdout equal to the newline-join of exactly the
stdout lines dequeued before the timeout fired in order, and a stderr equal
to the fixed timeout message; the dequeued stderr lines are discarded, and
the returned tuple has no timed-out flag. -/
theorem C1_timeout_result (systemName : String) (command : List String) (t : Int)
    (tr : RunTrace) (so se : List String) (e : Int)
    (h : drainLoop (some t) tr.loopPolls [] [] = some (DrainOut.timedOut so se e)) :
    run_command systemName command (some t) (SpawnOutcome.ok tr) =
      some ⟨124,
        pyJoin "\n" (projLines "STDOUT" (pollsConsumed (some t) tr.loopPolls)),
        "命令执行超时（" ++ toString t ++ "秒）", e⟩ := by
  have hp := drainLoop_timedOut_proj (some t) tr.loopPolls [] [] so se e h
  simp [run_command, h, timeoutMessage, hp.1]

/-- Witness for C1 at a concrete trace: one stdout line and one stderr line
dequeued, then the timeout fires. -/
theorem C1_timeout_result_witness :
    run_command "Linux" ["sleep", "100"] (some 10)
        (SpawnOutcome.ok ⟨[QueuePoll.item "STDOUT" "tick",
          QueuePoll.item "STDERR" "boom", QueuePoll.empty false 11], [], 0, 11⟩) =
      some ⟨124, "tick", "命令执行超时（10秒）", 11⟩ := by
  have h := C1_timeout_result "Linux" ["sleep", "100"] 10
    ⟨[QueuePoll.item "STDOUT" "tick", QueuePoll.item "STDERR" "boom",
      QueuePoll.empty false 11], [], 0, 11⟩ ["tick"] ["boom"] 11 rfl
  exact h.trans (by decide)

/-- C3: on normal completion the captured stdout text is the newline-join of
exactly the STDOUT-tagged lines dequeued by the loop and the residual drain,
in dequeue order, and likewise for stderr; per-stream dequeue order equals
the emission order of the child because each stream has a single reader
feeding the FIFO queue, and cross-stream interleaving is not constrained. -/
theorem C3_per_stream_order (systemName : String) (command : List String)
    (timeout : Option Int) (tr : RunTrace) (so se : List String)
    (h : drainLoop timeout tr.loopPolls [] [] = some (DrainOut.finished so se)) :
    run_command systemName command timeout (SpawnOutcome.ok tr) =
      some ⟨tr.returncode,
        pyJoin "\n" (projLines "STDOUT" (pollsConsumed timeout tr.loopPolls ++ tr.residual)),
        pyJoin "\n" (projLines "STDERR" (pollsConsumed timeout tr.loopPolls ++ tr.residual)),
        tr.durationAtEnd⟩ := by
  have hp := drainLoop_finished_proj timeout tr.loopPolls [] [] so se h
  simp [run_command, h, residualDrain_proj, projLines_append, hp.1, hp.2]

/-- Witness for C3 at a concrete trace with interleaved streams and residual
queue contents. -/
theorem C3_per_stream_order_witness :
    run_command "Linux" ["mytool"] none
        (SpawnOutcome.ok ⟨[QueuePoll.item "STDOUT" "one", QueuePoll.item "STDERR" "err1",
          QueuePoll.item "STDOUT" "two", QueuePoll.empty true 2],
          [("STDOUT", "three"), ("STDERR", "err2")], 0, 2⟩) =
      some ⟨0, "one\ntwo\nthree", "err1\nerr2", 2⟩ := by
  have h := C3_per_stream_order "Linux" ["mytool"] none
    ⟨[QueuePoll.item "STDOUT" "one", QueuePoll.item "STDERR" "err1",
      QueuePoll.item "STDOUT" "two", QueuePoll.empty true 2],
      [("STDOUT", "three"), ("STDERR", "err2")], 0, 2⟩ ["one", "two"] ["err1"] rfl
  exact h.trans (by decide)

/-- C5: when parsing the command string fails, main exits with 1 and nothing
is executed; when the executed command completes normally, main exits with
exactly the returncode reported by the child. -/
theorem C5_exit_propagation (args : Args) (shlexRes : Except String (List String))
    (env_password : Option String) (systemName : String) (spawn : SpawnOutcome)
    (smtp : SmtpOutcome) :
    (∀ e, determineCommand args.command_string args.command shlexRes = Except.error e →
      main_model args shlexRes env_password systemName spawn smtp =
        some ⟨1, false, ["错误: 无法解析命令字符串: " ++ e]⟩) ∧
    (∀ (command : List String) (tr : RunTrace) (so se : List String),
      determineCommand args.command_string args.command shlexRes = Except.ok (some command) →
      spawn = SpawnOutcome.ok tr →
      drainLoop args.timeout tr.loopPolls [] [] = some (DrainOut.finished so se) →
      (main_model args shlexRes env_password systemName spawn smtp).map MainResult.exit =
        some tr.returncode) := by
  constructor
  · intro e he
    simp [main_model, he]
  · intro command tr so se hc hs hd
    subst hs
    simp only [main_model, hc, run_command, hd]
    split <;> simp

/-- Witness for C5: a failed parse exits 1 without executing; a command
exiting 7 makes main exit 7. -/
theorem C5_exit_propagation_witness :
    main_model ⟨some "echo (", none, none, true, none⟩
        (Except.error "No closing quotation") (some "pw") "Linux"
        (SpawnOutcome.ok ⟨[QueuePoll.empty true 0], [], 7, 1⟩)
        (SmtpOutcome.sendReturns true "") =
      some ⟨1, false, ["错误: 无法解析命令字符串: No closing quotation"]⟩ ∧
    (main_model ⟨none, some ["ls"], none, true, none⟩ (Except.ok [])
        (some "pw") "Linux" (SpawnOutcome.ok ⟨[QueuePoll.empty true 0], [], 7, 1⟩)
        (SmtpOutcome.sendReturns true "")).map MainResult.exit = some 7 := by
  constructor
  · exact (C5_exit_propagation ⟨some "echo (", none, none, true, none⟩
      (Except.error "No closing quotation") (some "pw") "Linux"
      (SpawnOutcome.ok ⟨[QueuePoll.empty true 0], [], 7, 1⟩)
      (SmtpOutcome.sendReturns true "")).1 "No closing quotation" rfl
  · exact (C5_exit_propagation ⟨none, some ["ls"], none, true, none⟩ (Except.ok [])
      (some "pw") "Linux" (SpawnOutcome.ok ⟨[QueuePoll.empty true 0], [], 7, 1⟩)
      (SmtpOutcome.sendReturns true "")).2 ["ls"]
      ⟨[QueuePoll.empty true 0], [], 7, 1⟩ [] [] rfl rfl rfl

/-- C8: when notification is attempted and delivery raises, main catches the
exception, logs the failure line, and still exits with the child exit code. -/
theorem C8_delivery_failure_nonfatal (args : Args) (shlexRes : Except String (List String))
    (env_password : Option String) (systemName : String) (command : List String)
    (tr : RunTrace) (so se : List String) (smtp : SmtpOutcome) (emsg : String)
    (hc : determineCommand args.command_string args.command shlexRes =
      Except.ok (some command))
    (hd : drainLoop args.timeout tr.loopPolls [] [] = some (DrainOut.finished so se))
    (hne : args.no_email = false)
    (henv : pyTruthyStr env_password = true)
    (hfail : smtpDeliver smtp = Except.error emsg) :
    main_model args shlexRes env_password systemName (SpawnOutcome.ok tr) smtp =
      some ⟨tr.returncode, true, ["⚠️  邮件发送失败: " ++ emsg]⟩ := by
  simp only [main_model, hc, run_command, hd, hne, henv, send_notification, hfail,
    Bool.not_false, Bool.not_true, Bool.and_false, Bool.or_false]
  split <;> simp_all

/-- Witness for C8: delivery failure with message boom still exits 3. -/
theorem C8_delivery_failure_nonfatal_witness :
    main_model ⟨none, some ["ls"], none, false, none⟩ (Except.ok [])
        (some "pw") "Linux" (SpawnOutcome.ok ⟨[QueuePoll.empty true 0], [], 3, 1⟩)
        (SmtpOutcome.otherException "boom") =
      some ⟨3, true, ["⚠️  邮件发送失败: 邮件发送失败: boom"]⟩ := by
  exact C8_delivery_failure_nonfatal ⟨none, some ["ls"], none, false, none⟩
    (Except.ok []) (some "pw") "Linux" ["ls"] ⟨[QueuePoll.empty true 0], [], 3, 1⟩
    [] [] (SmtpOutcome.otherException "boom") "邮件发送失败: boom" rfl rfl rfl rfl rfl

/-- C9: with email requested but EMAIL_APP_PASSWORD absent, main logs the
two warning lines, still runs the command, attempts no notification, and
exits with the real child exit code, whatever the SMTP oracle would do. -/
theorem C9_missing_password_nonfatal (args : Args) (shlexRes : Except String (List String))
    (env_password : Option String) (systemName : String) (command : List String)
    (tr : RunTrace) (so se : List String) (smtp : SmtpOutcome)
    (hc : determineCommand args.command_string args.command shlexRes =
      Except.ok (some command))
    (hd : drainLoop args.timeout tr.loopPolls [] [] = some (DrainOut.finished so se))
    (hne : args.no_email = false)
    (henv : pyTruthyStr env_password = false) :
    main_model args shlexRes env_password systemName (SpawnOutcome.ok tr) smtp =
      some ⟨tr.returncode, true, missingPasswordWarning⟩ := by
  simp [main_model, hc, run_command, hd, hne, henv]

/-- Witness for C9: no password in the environment, the command runs and
main exits with its code 3. -/
theorem C9_missing_password_nonfatal_witness :
    main_model ⟨none, some ["ls"], none, false, none⟩ (Except.ok [])
        none "Linux" (SpawnOutcome.ok ⟨[QueuePoll.empty true 0], [], 3, 1⟩)
        (SmtpOutcome.otherException "boom") =
      some ⟨3, true, missingPasswordWarning⟩ := by
  exact C9_missing_password_nonfatal ⟨none, some ["ls"], none, false, none⟩
    (Except.ok []) none "Linux" ["ls"] ⟨[QueuePoll.empty true 0], [], 3, 1⟩
    [] [] (SmtpOutcome.otherException "boom") rfl rfl rfl rfl

/-- C6 counterexample: a failure with six stderr lines is truncated to the
last five, and the produced text contains no occurrence of the digit six, so
no total-line-count note accompanies the excerpt, refuting the claim that
every excerpt comes with such a note. -/
theorem C6_counterexample :
    5 < (pySplitNl (pyStrip "a\nb\nc\nd\ne\nf")).length ∧
    failureExtraInfo "Shell命令" 2 1 "" "a\nb\nc\nd\ne\nf" =
      "命令类型: Shell命令\n退出码: 2\n运行时间: 1.0 秒\n\n错误输出 (最后5行):\nb\nc\nd\ne\nf" ∧
    ((failureExtraInfo "Shell命令" 2 1 "" "a\nb\nc\nd\ne\nf").data.contains '6') = false := by
  exact ⟨by decide, by decide, by decide⟩

/-- C6 (amended): stripped output is included in full when its line count is
at or below the threshold (10 for success stdout, 5 for failure stderr, 3
for failure stdout); above the threshold the success path shows the first
five lines plus a total-line-count note, while the failure paths show only
the last five (stderr) or last three (stdout) lines with no count note. -/
theorem C6_truncation (cmd_type_cn : String) (ec d : Int) (stdout stderr : String) :
    (stdout ≠ "" → (pySplitNl (pyStrip stdout)).length ≤ 10 →
      successExtraInfo cmd_type_cn d stdout =
        successBaseInfo cmd_type_cn d ++ "\n\n输出内容:\n" ++ pyStrip stdout) ∧
    (stdout ≠ "" → 10 < (pySplitNl (pyStrip stdout)).length →
      successExtraInfo cmd_type_cn d stdout =
        successBaseInfo cmd_type_cn d ++ "\n\n输出摘要 (前5行):\n"
          ++ pyJoin "\n" ((pySplitNl (pyStrip stdout)).take 5)
          ++ "\n... (共 " ++ toString (pySplitNl (pyStrip stdout)).length ++ " 行输出)") ∧
    (stderr ≠ "" → stdout = "" → (pySplitNl (pyStrip stderr)).length ≤ 5 →
      failureExtraInfo cmd_type_cn ec d stdout stderr =
        failureBaseInfo cmd_type_cn ec d ++ "\n\n错误输出:\n" ++ pyStrip stderr) ∧
    (stderr ≠ "" → stdout = "" → 5 < (pySplitNl (pyStrip stderr)).length →
      failureExtraInfo cmd_type_cn ec d stdout stderr =
        failureBaseInfo cmd_type_cn ec d ++ "\n\n错误输出 (最后5行):\n"
          ++ pyJoin "\n" ((pySplitNl (pyStrip stderr)).drop
              ((pySplitNl (pyStrip stderr)).length - 5))) ∧
    (stdout ≠ "" → stderr = "" → (pySplitNl (pyStrip stdout)).length ≤ 3 →
      failureExtraInfo cmd_type_cn ec d stdout stderr =
        failureBaseInfo cmd_type_cn ec d ++ "\n\n标准输出:\n" ++ pyStrip stdout) ∧
    (stdout ≠ "" → stderr = "" → 3 < (pySplitNl (pyStrip stdout)).length →
      failureExtraInfo cmd_type_cn ec d stdout stderr =
        failureBaseInfo cmd_type_cn ec d ++ "\n\n标准输出 (最后3行):\n"
          ++ pyJoin "\n" ((pySplitNl (pyStrip stdout)).drop
              ((pySplitNl (pyStrip stdout)).length - 3))) := by
  refine ⟨?_, ?_, ?_, ?_, ?_, ?_⟩
  · intro h1 h2
    have hb : (stdout != "") = true := by simpa [bne_iff_ne] using h1
    simp [successExtraInfo, hb, h2]
  · intro h1 h2
    have hb : (stdout != "") = true := by simpa [bne_iff_ne] using h1
    have h3 : ¬ (pySplitNl (pyStrip stdout)).length ≤ 10 := by omega
    simp [successExtraInfo, hb, h3]
  · intro h1 h0 h2
    subst h0
    have hb : (stderr != "") = true := by simpa [bne_iff_ne] using h1
    simp [failureExtraInfo, hb, h2]
  · intro h1 h0 h2
    subst h0
    have hb : (stderr != "") = true := by simpa [bne_iff_ne] using h1
    have h3 : ¬ (pySplitNl (pyStrip stderr)).length ≤ 5 := by omega
    simp [failureExtraInfo, hb, h3]
  · intro h1 h0 h2
    subst h0
    have hb : (stdout != "") = true := by simpa [bne_iff_ne] using h1
    simp [failureExtraInfo, hb, h2]
  · intro h1 h0 h2
    subst h0
    have hb : (stdout != "") = true := by simpa [bne_iff_ne] using h1
    have h3 : ¬ (pySplitNl (pyStrip stdout)).length ≤ 3 := by omega
    simp [failureExtraInfo, hb, h3]

/-- Witness for C6: a two-line success output is shown in full; a six-line
failure stderr is cut to its last five lines. -/
theorem C6_truncation_witness :
    successExtraInfo "Shell命令" 1 "x\ny" =
      successBaseInfo "Shell命令" 1 ++ "\n\n输出内容:\n" ++ pyStrip "x\ny" ∧
    failureExtraInfo "Shell命令" 2 1 "" "a\nb\nc\nd\ne\nf" =
      failureBaseInfo "Shell命令" 2 1 ++ "\n\n错误输出 (最后5行):\n"
        ++ pyJoin "\n" ((pySplitNl (pyStrip "a\nb\nc\nd\ne\nf")).drop
            ((pySplitNl (pyStrip "a\nb\nc\nd\ne\nf")).length - 5)) := by
  constructor
  · exact (C6_truncation "Shell命令" 2 1 "x\ny" "").1 (by decide) (by decide)
  · exact (C6_truncation "Shell命令" 2 1 "" "a\nb\nc\nd\ne\nf").2.2.2.1
      (by decide) rfl (by decide)

end RunNotify
